import Mathlib

/-!
Verification development for the AIDND tool-calling orchestrator.

Shallow embedding of:
  * `agent_workflow.py` — the ReACT driver `answer_query`, the call-block
    extraction regex `CALL_RE` and the dispatcher `_maybe_execute_tool`;
  * `aidnd_tools.py` — the resolver `search_table` (with its helpers
    `_sqlite_get_api_url`, `_jsonl_find_by_slug_or_name`, `_load_lookup`)
    and the cached fetcher `fetch_and_cache`.

Python values flowing through the dispatcher are modelled by a `Json` type;
machine-level effects (LLM calls, the four tool bodies as seen from the
dispatcher) are oracle functions threaded through an explicit state `σ`.
The catalog files are modelled by a `World` record whose shapes follow the
records written by the offline builders `build_open5e_catalog.py` and
`generate_lookup.py` (JSONL lines are objects with string-or-null fields
`type`, `name`, `slug_or_index`, `api_url`, `document_slug`,
`document_title`; lookup tables map a name to a list of slug strings).
-/

/-- JSON values, as returned by `json.loads`.  Numbers are modelled as
integers (the dispatcher only ever coerces the `limit` argument with
`int(...)`). -/
inductive Json where
  | null : Json
  | bool (b : Bool) : Json
  | num (n : Int) : Json
  | str (s : String) : Json
  | arr (elems : List Json) : Json
  | obj (fields : List (String × Json)) : Json

/-- Python truthiness of an optional string (`None` and `""` are falsy). -/
def optTruthy : Option String → Bool
  | none => false
  | some s => s ≠ ""

mutual

/-- A plain JSON serialisation, standing in for `json.dumps` (whitespace
and string-escaping details are inert: serialised text is only ever fed
back to the opaque model oracle). -/
def jsonDump : Json → String
  | Json.null => "null"
  | Json.bool true => "true"
  | Json.bool false => "false"
  | Json.num n => toString n
  | Json.str s => "\"" ++ s ++ "\""
  | Json.arr xs => "[" ++ jsonDumpList xs ++ "]"
  | Json.obj kvs => "\x7b" ++ jsonDumpObj kvs ++ "\x7d"

/-- Serialise the elements of a JSON array. -/
def jsonDumpList : List Json → String
  | [] => ""
  | [x] => jsonDump x
  | x :: xs => jsonDump x ++ ", " ++ jsonDumpList xs

/-- Serialise the fields of a JSON object. -/
def jsonDumpObj : List (String × Json) → String
  | [] => ""
  | [(k, v)] => "\"" ++ k ++ "\": " ++ jsonDump v
  | (k, v) :: xs => "\"" ++ k ++ "\": " ++ jsonDump v ++ ", " ++ jsonDumpObj xs

end

/-- Python `str()` applied to a JSON value (used by the f-string in the
`unknown tool: {fn}` message). -/
def pyStr : Json → String
  | Json.null => "None"
  | Json.bool true => "True"
  | Json.bool false => "False"
  | Json.num n => toString n
  | Json.str s => s
  | j => jsonDump j

/-- `payload[key]` on a parsed JSON value: raises `TypeError` on a
non-object and `KeyError` on a missing key (both caught by the caller). -/
def pyIndex : Json → String → Except String Json
  | Json.obj kvs, k =>
      match kvs.lookup k with
      | some v => Except.ok v
      | none => Except.error ("KeyError: " ++ k)
  | _, _ => Except.error "TypeError: value is not subscriptable"

/-- `value.get(key, default)` on a parsed JSON value: raises
`AttributeError` when the value is not an object. -/
def pyGetD : Json → String → Json → Except String Json
  | Json.obj kvs, k, d => Except.ok ((kvs.lookup k).getD d)
  | _, _, _ => Except.error "AttributeError: no attribute get"

/-- Digit-string value, `none` when empty or containing a non-digit. -/
def digitsVal (cs : List Char) : Option Nat :=
  if cs = [] then none
  else if cs.all Char.isDigit then
    some (cs.foldl (fun a c => a * 10 + (c.toNat - 48)) 0)
  else none

/-- Strip leading and trailing whitespace from a character list
(Python `str.strip()`). -/
def stripList (cs : List Char) : List Char :=
  ((cs.dropWhile Char.isWhitespace).reverse.dropWhile Char.isWhitespace).reverse

/-- `str.strip().lower()`, the normalisation used throughout the resolver. -/
def pyStripLower (s : String) : String :=
  String.mk ((stripList s.toList).map Char.toLower)

/-- Parse an optionally signed integer literal with surrounding
whitespace, as accepted by Python `int(str)`. -/
def parsePyInt (s : String) : Option Int :=
  match stripList s.toList with
  | '-' :: rest => (digitsVal rest).map (fun n => -(n : Int))
  | '+' :: rest => (digitsVal rest).map (fun n => (n : Int))
  | cs => (digitsVal cs).map (fun n => (n : Int))

/-- Python `int(x)` on a JSON value: integers pass through, booleans
coerce, strings are parsed, anything else raises. -/
def pyInt : Json → Except String Int
  | Json.num n => Except.ok n
  | Json.bool b => Except.ok (if b then 1 else 0)
  | Json.str s =>
      match parsePyInt s with
      | some n => Except.ok n
      | none => Except.error ("ValueError: invalid literal for int: " ++ s)
  | _ => Except.error "TypeError: int() argument"

/-- The lowercase characters of the opening delimiter `<CALL>`. -/
def openPat : List Char := ['<', 'c', 'a', 'l', 'l', '>']

/-- The lowercase characters of the closing delimiter `</CALL>`. -/
def closePat : List Char := ['<', '/', 'c', 'a', 'l', 'l', '>']

/-- Case-insensitive prefix test: does `pat` (given lowercase) match the
head of the text? -/
def lcMatches : List Char → List Char → Bool
  | [], _ => true
  | _ :: _, [] => false
  | p :: ps, c :: cs => (c.toLower == p) && lcMatches ps cs

/-- Scan for the earliest closing delimiter, accumulating the payload
characters seen so far (in reverse). -/
def takeUntilCloseGo (acc : List Char) : List Char → Option (List Char)
  | [] => none
  | c :: rest =>
      if lcMatches closePat (c :: rest) then some acc.reverse
      else takeUntilCloseGo (c :: acc) rest

/-- Lazy-quantifier payload capture: at least one character, then the
earliest `</CALL>`. -/
def takeUntilClose : List Char → Option (List Char)
  | [] => none
  | c :: rest => takeUntilCloseGo [c] rest

/-- Leftmost-match scan for `<CALL>…</CALL>`. -/
def searchFromList : List Char → Option (List Char)
  | [] => none
  | c :: rest =>
      if lcMatches openPat (c :: rest) then
        match takeUntilClose (List.drop 6 (c :: rest)) with
        | some content => some content
        | none => searchFromList rest
      else searchFromList rest

/-- `CALL_RE.search(text)`: the first (case-insensitive, non-greedy)
occurrence of `<CALL>([\s\S]+?)</CALL>`, returning group 1. -/
def callSearch (text : String) : Option String :=
  (searchFromList text.toList).map (fun cs => String.mk cs)

/-- The dictionary built by `_maybe_execute_tool` around one dispatched
call: function name, arguments, and either a `result` or an `error` key. -/
structure ObsRecord where
  fn : Json
  args : Json
  result : Option Json
  error : Option String

/-- One chat message (`{"role": ..., "content": ...}`). -/
structure Message where
  role : String
  content : String

/-- The effectful collaborators of the workflow, threaded through an
explicit state `σ`: the opaque LLM and the four tool bodies exactly as
the dispatcher invokes them.  `jsonParse` stands for `json.loads`,
returning `none` when the library would raise. -/
structure Env (σ : Type) where
  llm : σ → List Message → σ × String
  jsonParse : String → Option Json
  look_monster_table : σ → Json → Int → σ × Except String Json
  look_table : σ → Json → Json → Int → σ × Except String Json
  search_table : σ → Json → Json → Json → σ × Except String Json
  fetch_and_cache : σ → Json → Json → σ × Except String Json

/-- `payload.get("args", {})` — only evaluated once `payload["fn"]`
succeeded, hence `payload` is an object. -/
def argsOf : Json → Json
  | Json.obj kvs => (kvs.lookup "args").getD (Json.obj [])
  | _ => Json.obj []

/-- The `if fn == ... / elif ... / else` chain of `_maybe_execute_tool`:
`some` runs the recognised tool (argument coercions may raise inside the
same `try`, yielding `Except.error` without touching the state), `none`
means the final `else` (unknown tool).  Comparing the `fn` value with a
string literal succeeds only when it is a JSON string, exactly as Python
`==` between an arbitrary value and a `str`. -/
def runKnown {σ : Type} (env : Env σ) (s : σ) (fn args : Json) :
    Option (σ × Except String Json) :=
  match fn with
  | Json.str f =>
    if f = "look_monster_table" then
      some (match (do
          let q ← pyGetD args "query" (Json.str "")
          let l0 ← pyGetD args "limit" (Json.num 20)
          let l ← pyInt l0
          pure (q, l) : Except String (Json × Int)) with
        | Except.error e => (s, Except.error e)
        | Except.ok (q, l) => env.look_monster_table s q l)
    else if f = "look_table" then
      some (match (do
          let t ← pyGetD args "type" (Json.str "monsters")
          let q ← pyGetD args "query" (Json.str "")
          let l0 ← pyGetD args "limit" (Json.num 20)
          let l ← pyInt l0
          pure (t, q, l) : Except String (Json × Json × Int)) with
        | Except.error e => (s, Except.error e)
        | Except.ok (t, q, l) => env.look_table s t q l)
    else if f = "search_table" then
      some (match (do
          let t ← pyGetD args "type" (Json.str "monsters")
          let ns ← pyGetD args "name_or_slug" (Json.str "")
          let pd ← pyGetD args "prefer_doc" Json.null
          pure (t, ns, pd) : Except String (Json × Json × Json)) with
        | Except.error e => (s, Except.error e)
        | Except.ok (t, ns, pd) => env.search_table s t ns pd)
    else if f = "fetch_and_cache" then
      some (match (do
          let t ← pyGetD args "type" (Json.str "monsters")
          let sl ← pyGetD args "slug" (Json.str "")
          pure (t, sl) : Except String (Json × Json)) with
        | Except.error e => (s, Except.error e)
        | Except.ok (t, sl) => env.fetch_and_cache s t sl)
    else none
  | _ => none

/-- `_maybe_execute_tool`: detect one `<CALL>…</CALL>` block, parse its
payload, dispatch.  `none` plays the role of Python `None` ("no tool
call"); parse failures (including a missing or unreachable `"fn"` key)
are downgraded to `none` by the first `try`. -/
def maybe_execute_tool {σ : Type} (env : Env σ) (s : σ) (text : String) :
    σ × Option ObsRecord :=
  match callSearch text with
  | none => (s, none)
  | some raw =>
    match env.jsonParse raw with
    | none => (s, none)
    | some payload =>
      match pyIndex payload "fn" with
      | Except.error _ => (s, none)
      | Except.ok fn =>
        match runKnown env s fn (argsOf payload) with
        | none =>
            (s, some ⟨fn, argsOf payload, none,
                      some ("unknown tool: " ++ pyStr fn)⟩)
        | some (s', Except.ok r) => (s', some ⟨fn, argsOf payload, some r, none⟩)
        | some (s', Except.error e) => (s', some ⟨fn, argsOf payload, none, some e⟩)

/-- `SYSTEM_PROMPT` from `agent_workflow.py` (protocol rules; the worked
examples block is conversationally inert for every property below and is
abbreviated by its heading). -/
def systemPrompt : String :=
  "[You are AIDND Assistant]\n" ++
  "You MUST follow this ReACT tool-calling protocol. When you need data from the local catalog or Open5e, you MUST call tools.\n" ++
  "Do NOT narrate or describe your intentions. Instead, output exactly one tool call block:\n" ++
  "  <CALL>\x7b\"fn\":\"function_name\",\"args\":\x7b...\x7d\x7d</CALL>\n" ++
  "After the system executes the tool, it will append a system message beginning with:\n" ++
  "  Observation: \x7b ... \x7d\n" ++
  "You may think again, optionally call more tools, and ONLY AFTER calling fetch_and_cache, produce the final user-facing answer.\n" ++
  "Never include <CALL> in your final answer.\n" ++
  "\n" ++
  "Available functions:\n" ++
  "- look_monster_table(query:str, limit:int=20)\n" ++
  "- search_table(type:str, name_or_slug:str, prefer_doc:str|None)\n" ++
  "- fetch_and_cache(type:str, slug:str)\n" ++
  "\n" ++
  "Supported resource types (for search_table & fetch_and_cache):\n" ++
  "  monsters, spells, equipment, backgrounds, classes,\n" ++
  "  conditions, documents, feats, planes, races,\n" ++
  "  sections, spelllist\n" ++
  "\n" ++
  String.mk (List.replicate 20 '=') ++ " EXAMPLES BY CATEGORY " ++
  String.mk (List.replicate 20 '=') ++ "\n" ++
  "\n" ++
  String.mk (List.replicate 62 '=') ++ "\n" ++
  "Use these examples as templates. ALWAYS follow this exact format.\n"

/-- The reminder injected when the model fails to call a tool before any
successful fetch. -/
def reminderMessage : Message :=
  ⟨"system",
   "Reminder: You MUST call a tool next. Output exactly one block like <CALL>\x7b\"fn\":\"...\",\"args\":\x7b...\x7d\x7d</CALL>. Do NOT give a final answer yet."⟩

/-- The instruction injected right after a successful `fetch_and_cache`. -/
def postFetchMessage : Message :=
  ⟨"system",
   "You have just received the full JSON data from fetch_and_cache. Now you MUST answer the user\x27s question in natural language, using that data. Do NOT call any tools again, and do NOT output any <CALL> blocks in your next message."⟩

/-- The fixed advisory returned when the step budget runs out. -/
def advisoryString : String :=
  "Tool call limit reached. Please provide a final answer based on the observations so far."

/-- The driver's gate condition
`call.get("fn") == "fetch_and_cache" and "result" in call and not call.get("error")`. -/
def isSuccessFetch (call : ObsRecord) : Bool :=
  (match call.fn with
   | Json.str f => f = "fetch_and_cache"
   | _ => false)
  && call.result.isSome
  && (match call.error with
      | none => true
      | some e => e = "")

/-- `isSuccessFetch` lifted to the dispatcher's optional record. -/
def isSuccessFetchO : Option ObsRecord → Bool
  | none => false
  | some call => isSuccessFetch call

/-- The `Observation: {...}` system message content for one record
(`json.dumps(call)`; whitespace details inert). -/
def obsDump (call : ObsRecord) : String :=
  jsonDump (Json.obj ([("fn", call.fn), ("args", call.args)] ++
    (match call.result with
     | some r => [("result", r)]
     | none => []) ++
    (match call.error with
     | some e => [("error", Json.str e)]
     | none => [])))

/-- How one driver iteration ended the whole turn. -/
inductive DriverResult where
  | finalAnswer (text : String) : DriverResult
  | budget : DriverResult

/-- Trace entry for one driver step: the model text, the dispatcher's
record (if any), and the fetched-once flag before and after the step. -/
structure StepRec where
  text : String
  call : Option ObsRecord
  fetchedBefore : Bool
  fetchedAfter : Bool

/-- Result of running (the rest of) the driver loop: final oracle state,
per-step trace, and how the turn ended. -/
structure RunResult (σ : Type) where
  state : σ
  trace : List StepRec
  result : DriverResult

/-- The `for step in range(max_tool_steps)` loop of `answer_query`:
invoke the model, append its reply, dispatch; on no call either remind
and retry (before any successful fetch) or terminate with the reply; on
a call, set the flag and inject the post-fetch instruction when the
gate condition holds, then append the observation. -/
def answer_query_loop {σ : Type} (env : Env σ) :
    Nat → σ → List Message → Bool → RunResult σ
  | 0, s, _, _ => ⟨s, [], DriverResult.budget⟩
  | Nat.succ n, s, msgs, fetched =>
    let text := (env.llm s msgs).2
    let s1 := (env.llm s msgs).1
    let disp := maybe_execute_tool env s1 text
    match disp.2 with
    | none =>
      if fetched then
        ⟨disp.1, [⟨text, none, fetched, fetched⟩], DriverResult.finalAnswer text⟩
      else
        let r := answer_query_loop env n disp.1
          (msgs ++ [⟨"assistant", text⟩, reminderMessage]) fetched
        ⟨r.state, ⟨text, none, fetched, fetched⟩ :: r.trace, r.result⟩
    | some call =>
      let cond := isSuccessFetch call
      let r := answer_query_loop env n disp.1
        ((if cond then msgs ++ [⟨"assistant", text⟩, postFetchMessage]
          else msgs ++ [⟨"assistant", text⟩]) ++
         [⟨"system", "Observation: " ++ obsDump call⟩])
        (fetched || cond)
      ⟨r.state, ⟨text, some call, fetched, fetched || cond⟩ :: r.trace, r.result⟩

/-- One full turn, instrumented: the initial history is the system prompt
plus the user query, and `fetched_once` starts `False`. -/
def answer_query_run {σ : Type} (env : Env σ) (s0 : σ) (user_query : String)
    (max_tool_steps : Nat) : RunResult σ :=
  answer_query_loop env max_tool_steps s0
    [⟨"system", systemPrompt⟩, ⟨"user", user_query⟩] false

/-- `answer_query`: the string handed to the end caller — the final
assistant reply, or the fixed advisory on budget exhaustion. -/
def answer_query {σ : Type} (env : Env σ) (s0 : σ) (user_query : String)
    (max_tool_steps : Nat) : String :=
  match (answer_query_run env s0 user_query max_tool_steps).result with
  | DriverResult.finalAnswer t => t
  | DriverResult.budget => advisoryString

/-- One row of the `catalog` table of `open5e_catalog.sqlite`, as far as
`_sqlite_get_api_url` reads it (`api_url` may be NULL). -/
structure CatRow where
  type : String
  slug_or_index : String
  api_url : Option String

/-- One JSONL catalog record, with the string-or-null fields written by
`build_open5e_catalog.py` (`none` covers both a missing key and JSON
null — indistinguishable under `obj.get`). -/
structure Entry where
  type : Option String
  name : Option String
  slug_or_index : Option String
  api_url : Option String
  document_slug : Option String
  document_title : Option String

/-- The resource types that have a JSONL catalog file (`JSONL_FILES`). -/
def jsonlTypes : List String :=
  ["monsters", "equipment", "spells", "backgrounds", "classes",
   "conditions", "documents", "feats", "planes", "races",
   "sections", "spelllist"]

/-- The resource types that have a name→slugs lookup table
(`LOOKUP_FILES`). -/
def lookupKinds : List String := ["monsters", "equipment", "spells"]

/-- The on-disk state read and written by the tools: the optional SQLite
catalog, the JSONL files (per type; a line is `none` when blank or
unparseable and hence skipped), the lookup tables, the cache directory
(parsed file content per `(type, slug)`), and the network transport
(`requests.get(...).json()`, `Except.error` covering transport errors
and `raise_for_status`), instrumented with a call counter. -/
structure World where
  sqlite : Option (List CatRow)
  jsonl : String → Option (List (Option Entry))
  lookupFiles : String → Option (List (String × List String))
  cache : String → String → Option Json
  net : String → Except String Json
  netCount : Nat

/-- `_sqlite_get_api_url`: point lookup in the catalog table; returns
`row[0] if row and row[0] else None` on the first matching row. -/
def sqlite_get_api_url (db : Option (List CatRow)) (res_type slug : String) :
    Option String :=
  match db with
  | none => none
  | some rows =>
    match rows.find? (fun r => r.type == res_type && r.slug_or_index == slug) with
    | none => none
    | some r =>
      match r.api_url with
      | none => none
      | some u => if u = "" then none else some u

/-- `_jsonl_find_by_slug_or_name`: linear scan of the type's JSONL file
for the first record whose normalised `slug_or_index` or `name` equals
the normalised key; the source repackages the six fields into a metadata
dict with the same contents, so the record itself is returned. -/
def jsonl_find_by_slug_or_name (w : World) (res_type name_or_slug : String) :
    Option Entry :=
  if res_type ∈ jsonlTypes then
    match w.jsonl res_type with
    | none => none
    | some lines =>
      let key := pyStripLower name_or_slug
      lines.findSome? (fun line =>
        match line with
        | none => none
        | some obj =>
          if key = pyStripLower (obj.slug_or_index.getD "") ∨
             key = pyStripLower (obj.name.getD "") then some obj
          else none)
  else none

/-- `_load_lookup`: the parsed name→slugs table, `{}` when the kind has
no lookup file or the file is missing. -/
def load_lookup (w : World) (kind : String) : List (String × List String) :=
  if kind ∈ lookupKinds then (w.lookupFiles kind).getD [] else []

/-- The disambiguation-tier guard
`prefer_doc and meta.get("document_slug") == prefer_doc`. -/
def prefMatches (prefer_doc : Option String) (meta : Entry) : Bool :=
  match prefer_doc with
  | none => false
  | some p => if p = "" then false else meta.document_slug == some p

/-- The inner `for s in slugs` loop of `search_table`'s third tier:
track the first fetchable candidate as `best`, prefer (and break at) a
candidate matching `prefer_doc`. -/
def disambiguateSlugs (w : World) (res_type : String)
    (prefer_doc : Option String) (best : Option Entry) :
    List String → Option Entry
  | [] => best
  | s :: rest =>
    match jsonl_find_by_slug_or_name w res_type s with
    | none => disambiguateSlugs w res_type prefer_doc best rest
    | some meta =>
      let best1 := match best with
        | none => some meta
        | some b => some b
      if prefMatches prefer_doc meta then some meta
      else disambiguateSlugs w res_type prefer_doc best1 rest

/-- The outer `for name, slugs in lookup.items()` loop of the third
tier: on a (normalised) name match with a nonempty candidate list, run
the inner loop and return its pick when truthy, else keep scanning. -/
def scanLookup (w : World) (res_type name_or_slug : String)
    (prefer_doc : Option String) :
    List (String × List String) → Option Entry
  | [] => none
  | (name, slugs) :: rest =>
    if pyStripLower name = pyStripLower name_or_slug ∧ slugs ≠ [] then
      match disambiguateSlugs w res_type prefer_doc none slugs with
      | some best => some best
      | none => scanLookup w res_type name_or_slug prefer_doc rest
    else scanLookup w res_type name_or_slug prefer_doc rest

/-- The resolver's outcome: `{chosen_name, chosen_slug, api_url}` or the
`{"error": "not found: ..."}` dict. -/
inductive SearchResult where
  | found (chosen_name chosen_slug api_url : Option String) : SearchResult
  | err (msg : String) : SearchResult

/-- `search_table`: tier 1 treats the input as a slug in SQLite, tier 2
scans the JSONL for an exact slug/name match, tier 3 disambiguates via
the name→slugs lookup table; all tiers missing yields the not-found
error dict. -/
def search_table (w : World) (res_type name_or_slug : String)
    (prefer_doc : Option String) : SearchResult :=
  let api_url := sqlite_get_api_url w.sqlite res_type name_or_slug
  if optTruthy api_url then
    SearchResult.found (some name_or_slug) (some name_or_slug) api_url
  else
    match jsonl_find_by_slug_or_name w res_type name_or_slug with
    | some hit => SearchResult.found hit.name hit.slug_or_index hit.api_url
    | none =>
      if res_type ∈ lookupKinds then
        match scanLookup w res_type name_or_slug prefer_doc
            (load_lookup w res_type) with
        | some best =>
            SearchResult.found best.name best.slug_or_index best.api_url
        | none =>
            SearchResult.err ("not found: " ++ res_type ++ " / " ++ name_or_slug)
      else
        SearchResult.err ("not found: " ++ res_type ++ " / " ++ name_or_slug)

/-- Locator resolution of `fetch_and_cache`: the SQLite url when truthy,
else the JSONL record's `api_url` when that record exists and its url is
truthy. -/
def fetch_locator (w : World) (res_type slug : String) : Option String :=
  let sq := sqlite_get_api_url w.sqlite res_type slug
  if optTruthy sq then sq
  else
    match jsonl_find_by_slug_or_name w res_type slug with
    | none => none
    | some meta => if optTruthy meta.api_url then meta.api_url else none

/-- `fetch_and_cache`: return the parsed cache file verbatim on a hit;
otherwise resolve a locator (returning the `no api_url` error dict when
none exists), perform one instrumented network retrieval (exceptions
propagate as `Except.error`), persist `{slug, api_url, data}` at the
cache path and return it. -/
def fetch_and_cache (w : World) (res_type slug : String) :
    World × Except String Json :=
  match w.cache res_type slug with
  | some content => (w, Except.ok content)
  | none =>
    match fetch_locator w res_type slug with
    | none =>
      (w, Except.ok (Json.obj
        [("error", Json.str ("no api_url for " ++ res_type ++ "/" ++ slug))]))
    | some api_url =>
      let w1 : World := { w with netCount := w.netCount + 1 }
      match w.net api_url with
      | Except.error e => (w1, Except.error e)
      | Except.ok data =>
        let out := Json.obj
          [("slug", Json.str slug), ("api_url", Json.str api_url), ("data", data)]
        ({ w1 with
            cache := fun t s2 =>
              if t = res_type ∧ s2 = slug then some out else w.cache t s2 },
         Except.ok out)

/-- Spec-side reading of the third tier ("the first candidate in index
order whose full entry can be fetched"). -/
def firstFetch (w : World) (res_type : String) (cs : List String) :
    Option Entry :=
  cs.findSome? (fun c => jsonl_find_by_slug_or_name w res_type c)

/-- Spec-side reading of the preferred-document override ("some
candidate's document matches it … scanning stops at it"). -/
def firstPref (w : World) (res_type p : String) (cs : List String) :
    Option Entry :=
  cs.findSome? (fun c =>
    match jsonl_find_by_slug_or_name w res_type c with
    | some m => if m.document_slug == some p then some m else none
    | none => none)

/-- First of two options, preferring the left. -/
def orFirst (b x : Option Entry) : Option Entry :=
  match b with
  | some v => some v
  | none => x

/-- Python truthiness of the `prefer_doc` argument. -/
def pdTruthy : Option String → Option String
  | none => none
  | some p => if p = "" then none else some p

/-- C6: `parseAndDispatch` (`_maybe_execute_tool`) never raises: no block
and unparseable payloads (including an unreachable `"fn"`) yield `none`;
a recognised-syntax call with an unrecognised function name yields an
explicit `unknown tool` error record; a failure inside a dispatched tool
is captured as the record's error field; and every record carries exactly
one of result/error. -/
theorem maybe_execute_tool_total {σ : Type} (env : Env σ) :
    (∀ (s : σ) (text : String), callSearch text = none →
        maybe_execute_tool env s text = (s, none))
  ∧ (∀ (s : σ) (text raw : String), callSearch text = some raw →
        env.jsonParse raw = none → maybe_execute_tool env s text = (s, none))
  ∧ (∀ (s : σ) (text raw : String) (payload : Json) (e : String),
        callSearch text = some raw → env.jsonParse raw = some payload →
        pyIndex payload "fn" = Except.error e →
        maybe_execute_tool env s text = (s, none))
  ∧ (∀ (s : σ) (args fn : Json),
        (∀ f, fn = Json.str f →
          f ≠ "look_monster_table" ∧ f ≠ "look_table" ∧
          f ≠ "search_table" ∧ f ≠ "fetch_and_cache") →
        runKnown env s fn args = none)
  ∧ (∀ (s : σ) (text raw : String) (payload fn : Json),
        callSearch text = some raw → env.jsonParse raw = some payload →
        pyIndex payload "fn" = Except.ok fn →
        runKnown env s fn (argsOf payload) = none →
        maybe_execute_tool env s text =
          (s, some ⟨fn, argsOf payload, none,
                    some ("unknown tool: " ++ pyStr fn)⟩))
  ∧ (∀ (s : σ) (text raw : String) (payload fn : Json) (s' : σ) (e : String),
        callSearch text = some raw → env.jsonParse raw = some payload →
        pyIndex payload "fn" = Except.ok fn →
        runKnown env s fn (argsOf payload) = some (s', Except.error e) →
        maybe_execute_tool env s text =
          (s', some ⟨fn, argsOf payload, none, some e⟩))
  ∧ (∀ (s s' : σ) (text : String) (r : ObsRecord),
        maybe_execute_tool env s text = (s', some r) →
        (r.result.isSome ∧ r.error = none) ∨
        (r.result = none ∧ r.error.isSome)) := by
  refine ⟨?_, ?_, ?_, ?_, ?_, ?_, ?_⟩
  · intro s text h
    simp [maybe_execute_tool, h]
  · intro s text raw h hp
    simp [maybe_execute_tool, h, hp]
  · intro s text raw payload e h hp hfn
    simp [maybe_execute_tool, h, hp, hfn]
  · intro s args fn hfn
    cases fn with
    | str f =>
      obtain ⟨h1, h2, h3, h4⟩ := hfn f rfl
      simp [runKnown, h1, h2, h3, h4]
    | null => rfl
    | bool b => rfl
    | num n => rfl
    | arr xs => rfl
    | obj kvs => rfl
  · intro s text raw payload fn h hp hfn hrk
    simp [maybe_execute_tool, h, hp, hfn, hrk]
  · intro s text raw payload fn s' e h hp hfn hrk
    simp [maybe_execute_tool, h, hp, hfn, hrk]
  · intro s s' text r h
    unfold maybe_execute_tool at h
    split at h
    · simp at h
    · split at h
      · simp at h
      · split at h
        · simp at h
        · split at h
          · obtain ⟨-, h2⟩ := Prod.mk.injEq .. ▸ h
            obtain rfl := (Option.some.injEq ..).mp h2
            right; simp
          · obtain ⟨-, h2⟩ := Prod.mk.injEq .. ▸ h
            obtain rfl := (Option.some.injEq ..).mp h2
            left; simp
          · obtain ⟨-, h2⟩ := Prod.mk.injEq .. ▸ h
            obtain rfl := (Option.some.injEq ..).mp h2
            right; simp

/-- Tiny oracle used to exercise the dispatcher on concrete inputs:
state `Unit`, a parser recognising two fixed payloads, and constant
tools. -/
def demoDispatchEnv : Env Unit where
  llm := fun s _ => (s, "")
  jsonParse := fun raw =>
    if raw = "U" then some (Json.obj [("fn", Json.str "mystery")])
    else if raw = "F" then
      some (Json.obj [("fn", Json.str "fetch_and_cache"), ("args", Json.obj [])])
    else none
  look_monster_table := fun s _ _ => (s, Except.error "offline")
  look_table := fun s _ _ _ => (s, Except.error "offline")
  search_table := fun s _ _ _ => (s, Except.error "offline")
  fetch_and_cache := fun s _ _ => (s, Except.ok Json.null)

/-- Witness for C6: the branches of `maybe_execute_tool_total` at
concrete texts — no block, a block with an unparseable payload, and an
unknown tool name. -/
theorem maybe_execute_tool_total_witness :
    maybe_execute_tool demoDispatchEnv () "plain answer" = ((), none)
  ∧ maybe_execute_tool demoDispatchEnv () "<CALL>bad json</CALL>" = ((), none)
  ∧ maybe_execute_tool demoDispatchEnv () "<CALL>U</CALL>" =
      ((), some ⟨Json.str "mystery", Json.obj [], none,
                 some "unknown tool: mystery"⟩) :=
  ⟨(maybe_execute_tool_total demoDispatchEnv).1 () "plain answer" rfl,
   (maybe_execute_tool_total demoDispatchEnv).2.1 () "<CALL>bad json</CALL>"
     "bad json" rfl rfl,
   (maybe_execute_tool_total demoDispatchEnv).2.2.2.2.1 ()
     "<CALL>U</CALL>" "U" (Json.obj [("fn", Json.str "mystery")])
     (Json.str "mystery") rfl rfl rfl rfl⟩

/-- C10: for a recognised function name, missing arguments are replaced
by the fixed defaults (`type` → `"monsters"`, `query`/`name_or_slug`/
`slug` → `""`, `limit` → `20`); in particular a `fetch_and_cache` call
with an empty args object is dispatched with type `"monsters"` and the
empty-string slug. -/
theorem dispatch_default_arguments {σ : Type} (env : Env σ) (s : σ)
    (kvs : List (String × Json)) :
    (kvs.lookup "type" = none → kvs.lookup "slug" = none →
        runKnown env s (Json.str "fetch_and_cache") (Json.obj kvs) =
          some (env.fetch_and_cache s (Json.str "monsters") (Json.str "")))
  ∧ (kvs.lookup "query" = none → kvs.lookup "limit" = none →
        runKnown env s (Json.str "look_monster_table") (Json.obj kvs) =
          some (env.look_monster_table s (Json.str "") 20))
  ∧ (kvs.lookup "type" = none → kvs.lookup "query" = none →
        kvs.lookup "limit" = none →
        runKnown env s (Json.str "look_table") (Json.obj kvs) =
          some (env.look_table s (Json.str "monsters") (Json.str "") 20))
  ∧ (kvs.lookup "type" = none → kvs.lookup "name_or_slug" = none →
        runKnown env s (Json.str "search_table") (Json.obj kvs) =
          some (env.search_table s (Json.str "monsters") (Json.str "")
            ((kvs.lookup "prefer_doc").getD Json.null))) := by
  refine ⟨?_, ?_, ?_, ?_⟩
  · intro h1 h2
    simp only [runKnown, pyGetD, h1, h2, Option.getD]
    rfl
  · intro h1 h2
    simp only [runKnown, pyGetD, h1, h2, Option.getD]
    rfl
  · intro h1 h2 h3
    simp only [runKnown, pyGetD, h1, h2, h3, Option.getD]
    rfl
  · intro h1 h2
    simp only [runKnown, pyGetD, h1, h2, Option.getD]
    rfl

/-- Witness for C10: dispatching `fetch_and_cache` with an empty args
object performs the call with type `"monsters"` and the empty slug. -/
theorem dispatch_default_arguments_witness :
    runKnown demoDispatchEnv () (Json.str "fetch_and_cache") (Json.obj []) =
      some (demoDispatchEnv.fetch_and_cache () (Json.str "monsters")
        (Json.str "")) :=
  (dispatch_default_arguments demoDispatchEnv () []).1 rfl rfl

/-- One driver step with no tool call while the flag is already set:
terminate with that reply as the final answer. -/
theorem loop_step_no_call_done {σ : Type} (env : Env σ) (n : Nat) (s : σ)
    (msgs : List Message)
    (h : (maybe_execute_tool env (env.llm s msgs).1 (env.llm s msgs).2).2 = none) :
    answer_query_loop env (n + 1) s msgs true =
      ⟨(maybe_execute_tool env (env.llm s msgs).1 (env.llm s msgs).2).1,
       [⟨(env.llm s msgs).2, none, true, true⟩],
       DriverResult.finalAnswer (env.llm s msgs).2⟩ := by
  rw [answer_query_loop, h]
  rfl

/-- One driver step with no tool call before any successful fetch:
append the assistant reply and the reminder, and continue with one step
fewer remaining. -/
theorem loop_step_no_call_retry {σ : Type} (env : Env σ) (n : Nat) (s : σ)
    (msgs : List Message)
    (h : (maybe_execute_tool env (env.llm s msgs).1 (env.llm s msgs).2).2 = none) :
    answer_query_loop env (n + 1) s msgs false =
      ⟨(answer_query_loop env n
          (maybe_execute_tool env (env.llm s msgs).1 (env.llm s msgs).2).1
          (msgs ++ [⟨"assistant", (env.llm s msgs).2⟩, reminderMessage])
          false).state,
       ⟨(env.llm s msgs).2, none, false, false⟩ ::
         (answer_query_loop env n
           (maybe_execute_tool env (env.llm s msgs).1 (env.llm s msgs).2).1
           (msgs ++ [⟨"assistant", (env.llm s msgs).2⟩, reminderMessage])
           false).trace,
       (answer_query_loop env n
          (maybe_execute_tool env (env.llm s msgs).1 (env.llm s msgs).2).1
          (msgs ++ [⟨"assistant", (env.llm s msgs).2⟩, reminderMessage])
          false).result⟩ := by
  rw [answer_query_loop, h]
  rfl

/-- One driver step that dispatched a call: record the observation
(prefixed by the post-fetch instruction when the gate fires), update the
flag, and continue. -/
theorem loop_step_call {σ : Type} (env : Env σ) (n : Nat) (s : σ)
    (msgs : List Message) (fetched : Bool) (call : ObsRecord)
    (h : (maybe_execute_tool env (env.llm s msgs).1 (env.llm s msgs).2).2 =
          some call) :
    answer_query_loop env (n + 1) s msgs fetched =
      ⟨(answer_query_loop env n
          (maybe_execute_tool env (env.llm s msgs).1 (env.llm s msgs).2).1
          ((if isSuccessFetch call = true then
              msgs ++ [⟨"assistant", (env.llm s msgs).2⟩, postFetchMessage]
            else msgs ++ [⟨"assistant", (env.llm s msgs).2⟩]) ++
           [⟨"system", "Observation: " ++ obsDump call⟩])
          (fetched || isSuccessFetch call)).state,
       ⟨(env.llm s msgs).2, some call, fetched, fetched || isSuccessFetch call⟩ ::
         (answer_query_loop env n
           (maybe_execute_tool env (env.llm s msgs).1 (env.llm s msgs).2).1
           ((if isSuccessFetch call = true then
               msgs ++ [⟨"assistant", (env.llm s msgs).2⟩, postFetchMessage]
             else msgs ++ [⟨"assistant", (env.llm s msgs).2⟩]) ++
            [⟨"system", "Observation: " ++ obsDump call⟩])
           (fetched || isSuccessFetch call)).trace,
       (answer_query_loop env n
          (maybe_execute_tool env (env.llm s msgs).1 (env.llm s msgs).2).1
          ((if isSuccessFetch call = true then
              msgs ++ [⟨"assistant", (env.llm s msgs).2⟩, postFetchMessage]
            else msgs ++ [⟨"assistant", (env.llm s msgs).2⟩]) ++
           [⟨"system", "Observation: " ++ obsDump call⟩])
          (fetched || isSuccessFetch call)).result⟩ := by
  rw [answer_query_loop, h]

/-- Invariant of the driver trace: the fetched-once flag after a step is
the flag before it, or-ed with the step's gate condition. -/
theorem answer_query_loop_flag {σ : Type} (env : Env σ) :
    ∀ (n : Nat) (s : σ) (msgs : List Message) (fetched : Bool),
      ∀ st ∈ (answer_query_loop env n s msgs fetched).trace,
        st.fetchedAfter = (st.fetchedBefore || isSuccessFetchO st.call) := by
  intro n
  induction n with
  | zero => intro s msgs fetched st hst; simp [answer_query_loop] at hst
  | succ n ih =>
    intro s msgs fetched st hst
    cases hd : (maybe_execute_tool env
        (env.llm s msgs).1 (env.llm s msgs).2).2 with
    | none =>
      cases fetched with
      | true =>
        rw [loop_step_no_call_done env n s msgs hd] at hst
        simp at hst
        subst hst
        simp [isSuccessFetchO]
      | false =>
        rw [loop_step_no_call_retry env n s msgs hd] at hst
        simp only [List.mem_cons] at hst
        rcases hst with rfl | hst
        · simp [isSuccessFetchO]
        · exact ih _ _ _ st hst
    | some call =>
      rw [loop_step_call env n s msgs fetched call hd] at hst
      simp only [List.mem_cons] at hst
      rcases hst with rfl | hst
      · simp [isSuccessFetchO]
      · exact ih _ _ _ st hst

/-- A run of the loop that terminates with a final answer either started
with the flag already set, or contains a step whose call passed the
successful-fetch gate. -/
theorem answer_query_loop_final_fetch {σ : Type} (env : Env σ) :
    ∀ (n : Nat) (s : σ) (msgs : List Message) (fetched : Bool) (t : String),
      (answer_query_loop env n s msgs fetched).result =
          DriverResult.finalAnswer t →
      fetched = true ∨
        ∃ st ∈ (answer_query_loop env n s msgs fetched).trace,
          isSuccessFetchO st.call = true := by
  intro n
  induction n with
  | zero => intro s msgs fetched t h; simp [answer_query_loop] at h
  | succ n ih =>
    intro s msgs fetched t h
    cases hd : (maybe_execute_tool env
        (env.llm s msgs).1 (env.llm s msgs).2).2 with
    | none =>
      cases fetched with
      | true => exact Or.inl rfl
      | false =>
        rw [loop_step_no_call_retry env n s msgs hd] at h ⊢
        dsimp only at h ⊢
        rcases ih _ _ _ t h with hf | ⟨st, hst, hsf⟩
        · simp at hf
        · exact Or.inr ⟨st, List.mem_cons_of_mem _ hst, hsf⟩
    | some call =>
      rw [loop_step_call env n s msgs fetched call hd] at h ⊢
      dsimp only at h ⊢
      rcases ih _ _ _ t h with hf | ⟨st, hst, hsf⟩
      · rcases (by simpa using hf : fetched = true ∨ isSuccessFetch call = true) with hf | hc
        · exact Or.inl hf
        · refine Or.inr ⟨_, List.mem_cons_self _ _, ?_⟩
          simpa [isSuccessFetchO] using hc
      · exact Or.inr ⟨st, List.mem_cons_of_mem _ hst, hsf⟩

/-- C1: during `answer_query` the fetched-once flag is set exactly on
steps whose dispatched call was `fetch_and_cache` and succeeded, and any
run that terminates with a final answer contains at least one such step
before termination — the driver never accepts a final answer before a
successful fetch. -/
theorem answer_query_grounded_final {σ : Type} (env : Env σ) (s0 : σ)
    (q : String) (n : Nat) :
    (∀ st ∈ (answer_query_run env s0 q n).trace,
        st.fetchedAfter = (st.fetchedBefore || isSuccessFetchO st.call))
  ∧ (∀ t, (answer_query_run env s0 q n).result = DriverResult.finalAnswer t →
        ∃ st ∈ (answer_query_run env s0 q n).trace,
          isSuccessFetchO st.call = true) := by
  constructor
  · exact answer_query_loop_flag env n s0 _ false
  · intro t h
    rcases answer_query_loop_final_fetch env n s0 _ false t h with hf | hex
    · simp at hf
    · exact hex

/-- C4: on a step with no tool call — if a detail-fetch already
succeeded, the driver terminates immediately with that reply as the
final answer; otherwise it appends the assistant reply plus the system
reminder demanding a tool call and continues with the next step
(consuming one step of the budget), without terminating. -/
theorem answer_query_no_call_step {σ : Type} (env : Env σ) (n : Nat) (s : σ)
    (msgs : List Message)
    (h : (maybe_execute_tool env (env.llm s msgs).1 (env.llm s msgs).2).2 = none) :
    (answer_query_loop env (n + 1) s msgs true =
      ⟨(maybe_execute_tool env (env.llm s msgs).1 (env.llm s msgs).2).1,
       [⟨(env.llm s msgs).2, none, true, true⟩],
       DriverResult.finalAnswer (env.llm s msgs).2⟩)
  ∧ (answer_query_loop env (n + 1) s msgs false =
      ⟨(answer_query_loop env n
          (maybe_execute_tool env (env.llm s msgs).1 (env.llm s msgs).2).1
          (msgs ++ [⟨"assistant", (env.llm s msgs).2⟩, reminderMessage])
          false).state,
       ⟨(env.llm s msgs).2, none, false, false⟩ ::
         (answer_query_loop env n
           (maybe_execute_tool env (env.llm s msgs).1 (env.llm s msgs).2).1
           (msgs ++ [⟨"assistant", (env.llm s msgs).2⟩, reminderMessage])
           false).trace,
       (answer_query_loop env n
          (maybe_execute_tool env (env.llm s msgs).1 (env.llm s msgs).2).1
          (msgs ++ [⟨"assistant", (env.llm s msgs).2⟩, reminderMessage])
          false).result⟩) :=
  ⟨loop_step_no_call_done env n s msgs h,
   loop_step_no_call_retry env n s msgs h⟩

/-- Oracle whose model never emits a call block. -/
def demoNoCallEnv : Env Unit where
  llm := fun s _ => (s, "All done!")
  jsonParse := fun _ => none
  look_monster_table := fun s _ _ => (s, Except.error "offline")
  look_table := fun s _ _ _ => (s, Except.error "offline")
  search_table := fun s _ _ _ => (s, Except.error "offline")
  fetch_and_cache := fun s _ _ => (s, Except.error "offline")

/-- Witness for C4: with the flag set, a call-free reply terminates the
run as the final answer; with it clear, the reminder is appended and the
run goes on to exhaust its budget. -/
theorem answer_query_no_call_step_witness :
    answer_query_loop demoNoCallEnv 1 () [] true =
      ⟨(), [⟨"All done!", none, true, true⟩],
       DriverResult.finalAnswer "All done!"⟩
  ∧ answer_query_loop demoNoCallEnv 1 () [] false =
      ⟨(), [⟨"All done!", none, false, false⟩], DriverResult.budget⟩ :=
  ⟨(answer_query_no_call_step demoNoCallEnv 0 () [] rfl).1,
   (answer_query_no_call_step demoNoCallEnv 0 () [] rfl).2⟩

/-- Driver oracle that fetches on its first step and answers on its
second (the state counts LLM invocations). -/
def demoDriveEnv : Env Nat where
  llm := fun s _ => (s + 1, if s = 0 then "<CALL>F</CALL>" else "done")
  jsonParse := fun raw =>
    if raw = "F" then
      some (Json.obj [("fn", Json.str "fetch_and_cache"), ("args", Json.obj [])])
    else none
  look_monster_table := fun s _ _ => (s, Except.error "offline")
  look_table := fun s _ _ _ => (s, Except.error "offline")
  search_table := fun s _ _ _ => (s, Except.error "offline")
  fetch_and_cache := fun s _ _ => (s, Except.ok Json.null)

/-- Witness for C1: a concrete run that terminates with a final answer
indeed contains a successful `fetch_and_cache` step. -/
theorem answer_query_grounded_final_witness :
    ∃ st ∈ (answer_query_run demoDriveEnv 0 "Tell me about Zombie" 6).trace,
      isSuccessFetchO st.call = true :=
  (answer_query_grounded_final demoDriveEnv 0 "Tell me about Zombie" 6).2
    "done" (by rfl)

/-- C9: the end caller of a full turn always receives a string — the
assistant's final reply when the run terminated with one, and the fixed
budget-exhausted advisory when the step budget ran out — never a raw
internal error. -/
theorem answer_query_budget_advisory {σ : Type} (env : Env σ) (s0 : σ)
    (q : String) (n : Nat) :
    ((answer_query_run env s0 q n).result = DriverResult.budget →
        answer_query env s0 q n = advisoryString)
  ∧ (∀ t, (answer_query_run env s0 q n).result = DriverResult.finalAnswer t →
        answer_query env s0 q n = t) := by
  constructor
  · intro h
    unfold answer_query
    rw [h]
  · intro t h
    unfold answer_query
    rw [h]

/-- Witness for C9: a run that never calls a tool exhausts its budget
and the caller receives exactly the advisory string. -/
theorem answer_query_budget_advisory_witness :
    answer_query demoNoCallEnv () "hello" 2 = advisoryString :=
  (answer_query_budget_advisory demoNoCallEnv () "hello" 2).1 (by rfl)

/-- C5: a `(type, identifier)` pair present in the indexed store returns
immediately from the fast path — the input unchanged as both chosen name
and chosen identifier, with the stored locator — and the outcome is
independent of every flat-file component of the world (zero JSONL
scans). -/
theorem search_table_fast_path (w : World) (t i : String) (pd : Option String)
    (url : String) (h : sqlite_get_api_url w.sqlite t i = some url)
    (hu : url ≠ "") :
    ∀ w' : World, w'.sqlite = w.sqlite →
      search_table w' t i pd =
        SearchResult.found (some i) (some i) (some url) := by
  intro w' hw
  unfold search_table
  rw [hw, h]
  simp [optTruthy, hu]

/-- World holding one indexed row `("monsters","zombie") → urlZ` and a
transport that answers `urlZ`. -/
def wZombie : World where
  sqlite := some [⟨"monsters", "zombie", some "urlZ"⟩]
  jsonl := fun _ => none
  lookupFiles := fun _ => none
  cache := fun _ _ => none
  net := fun u =>
    if u = "urlZ" then Except.ok (Json.str "payload") else Except.error "offline"
  netCount := 0

/-- Witness for C5: the fast path resolves `("monsters","zombie")` to
itself with the stored locator. -/
theorem search_table_fast_path_witness :
    search_table wZombie "monsters" "zombie" none =
      SearchResult.found (some "zombie") (some "zombie") (some "urlZ") :=
  search_table_fast_path wZombie "monsters" "zombie" none "urlZ" rfl
    (by decide) wZombie rfl

/-- C7: when the fast path, the exact flat-file scan and the
name-disambiguation tier all miss, `search_table` returns the not-found
error naming the `(type, input)` pair (no exception, no fuzzy matching;
the embedding is a pure function of the world, so no side effects). -/
theorem search_table_not_found (w : World) (t ns : String) (pd : Option String)
    (h1 : optTruthy (sqlite_get_api_url w.sqlite t ns) = false)
    (h2 : jsonl_find_by_slug_or_name w t ns = none)
    (h3 : scanLookup w t ns pd (load_lookup w t) = none) :
    search_table w t ns pd =
      SearchResult.err ("not found: " ++ t ++ " / " ++ ns) := by
  unfold search_table
  simp only [h1, Bool.false_eq_true, if_false, h2]
  by_cases hk : t ∈ lookupKinds
  · simp [hk, h3]
  · simp [hk]

/-- World with no catalog data at all. -/
def emptyWorld : World where
  sqlite := none
  jsonl := fun _ => none
  lookupFiles := fun _ => none
  cache := fun _ _ => none
  net := fun _ => Except.error "offline"
  netCount := 0

/-- Witness for C7: an unknown name misses all three tiers and yields
the not-found record. -/
theorem search_table_not_found_witness :
    search_table emptyWorld "monsters" "zzz" none =
      SearchResult.err "not found: monsters / zzz" :=
  search_table_not_found emptyWorld "monsters" "zzz" none rfl rfl rfl

/-- C8: with no cache file and no locator from either the indexed store
or the flat-file scan, `fetch_and_cache` returns the `no api_url` error
dict naming the pair, leaves the world untouched (no cache write) and
performs no network retrieval. -/
theorem fetch_and_cache_no_locator (w : World) (t s : String)
    (hc : w.cache t s = none)
    (hsq : optTruthy (sqlite_get_api_url w.sqlite t s) = false)
    (hjs : ∀ m, jsonl_find_by_slug_or_name w t s = some m →
        optTruthy m.api_url = false) :
    fetch_and_cache w t s =
      (w, Except.ok (Json.obj
        [("error", Json.str ("no api_url for " ++ t ++ "/" ++ s))])) := by
  have hl : fetch_locator w t s = none := by
    unfold fetch_locator
    simp only [hsq, Bool.false_eq_true, if_false]
    cases hj : jsonl_find_by_slug_or_name w t s with
    | none => rfl
    | some m => simp [hjs m hj]
  unfold fetch_and_cache
  rw [hc, hl]

/-- Witness for C8: fetching an unknown pair from the empty world
returns exactly the error dict and the unchanged world. -/
theorem fetch_and_cache_no_locator_witness :
    fetch_and_cache emptyWorld "monsters" "zzz" =
      (emptyWorld, Except.ok (Json.obj
        [("error", Json.str "no api_url for monsters/zzz")])) :=
  fetch_and_cache_no_locator emptyWorld "monsters" "zzz" rfl rfl
    (fun _ hm => nomatch hm)

/-- C3: `fetch_and_cache` is idempotent: once a call has returned data,
repeating it returns the same data and leaves the world — including the
transport call counter — unchanged; and a cache hit returns the stored
content verbatim with no locator resolution, no network request and no
state change. -/
theorem fetch_and_cache_idempotent (w : World) (t s : String) (d : Json)
    (h : (fetch_and_cache w t s).2 = Except.ok d) :
    (fetch_and_cache (fetch_and_cache w t s).1 t s =
        ((fetch_and_cache w t s).1, Except.ok d))
  ∧ ((fetch_and_cache (fetch_and_cache w t s).1 t s).1.netCount =
        (fetch_and_cache w t s).1.netCount)
  ∧ (∀ c, w.cache t s = some c → fetch_and_cache w t s = (w, Except.ok c)) := by
  have h3 : ∀ c, w.cache t s = some c →
      fetch_and_cache w t s = (w, Except.ok c) := by
    intro c hcc
    unfold fetch_and_cache
    rw [hcc]
  have h1 : fetch_and_cache (fetch_and_cache w t s).1 t s =
      ((fetch_and_cache w t s).1, Except.ok d) := by
    cases hcc : w.cache t s with
    | some c =>
      have heq := h3 c hcc
      rw [heq] at h ⊢
      obtain rfl : c = d := by simpa using h
      exact heq
    | none =>
      cases hl : fetch_locator w t s with
      | none =>
        have heq : fetch_and_cache w t s =
            (w, Except.ok (Json.obj
              [("error", Json.str ("no api_url for " ++ t ++ "/" ++ s))])) := by
          unfold fetch_and_cache
          rw [hcc, hl]
        rw [heq] at h ⊢
        obtain rfl := by simpa using h
        exact heq
      | some u =>
        cases hn : w.net u with
        | error e =>
          have heq : fetch_and_cache w t s =
              ({ w with netCount := w.netCount + 1 }, Except.error e) := by
            unfold fetch_and_cache
            rw [hcc, hl]
            dsimp only
            rw [hn]
          rw [heq] at h
          simp at h
        | ok data =>
          have heq : fetch_and_cache w t s =
              ({ { w with netCount := w.netCount + 1 } with
                  cache := fun t2 s2 =>
                    if t2 = t ∧ s2 = s then
                      some (Json.obj [("slug", Json.str s),
                        ("api_url", Json.str u), ("data", data)])
                    else w.cache t2 s2 },
               Except.ok (Json.obj [("slug", Json.str s),
                 ("api_url", Json.str u), ("data", data)])) := by
            unfold fetch_and_cache
            rw [hcc, hl]
            dsimp only
            rw [hn]
          rw [heq] at h ⊢
          obtain rfl := by simpa using h
          unfold fetch_and_cache
          simp
  exact ⟨h1, by rw [h1], h3⟩

/-- Witness for C3: after one real fetch of `("monsters","zombie")`, the
second call returns the identical record from the cache and changes
nothing. -/
theorem fetch_and_cache_idempotent_witness :
    fetch_and_cache (fetch_and_cache wZombie "monsters" "zombie").1
        "monsters" "zombie" =
      ((fetch_and_cache wZombie "monsters" "zombie").1,
       Except.ok (Json.obj [("slug", Json.str "zombie"),
         ("api_url", Json.str "urlZ"), ("data", Json.str "payload")])) :=
  (fetch_and_cache_idempotent wZombie "monsters" "zombie"
    (Json.obj [("slug", Json.str "zombie"),
      ("api_url", Json.str "urlZ"), ("data", Json.str "payload")])
    (by rfl)).1

/-- Head step of `firstFetch` when the candidate has no catalog entry. -/
theorem firstFetch_cons_none {w : World} {rt c : String} {rest : List String}
    (hj : jsonl_find_by_slug_or_name w rt c = none) :
    firstFetch w rt (c :: rest) = firstFetch w rt rest := by
  simp [firstFetch, List.findSome?_cons, hj]

/-- Head step of `firstFetch` when the candidate's entry exists. -/
theorem firstFetch_cons_some {w : World} {rt c : String} {rest : List String}
    {m : Entry} (hj : jsonl_find_by_slug_or_name w rt c = some m) :
    firstFetch w rt (c :: rest) = some m := by
  simp [firstFetch, List.findSome?_cons, hj]

/-- Head step of `firstPref` when the candidate has no catalog entry. -/
theorem firstPref_cons_none {w : World} {rt p c : String} {rest : List String}
    (hj : jsonl_find_by_slug_or_name w rt c = none) :
    firstPref w rt p (c :: rest) = firstPref w rt p rest := by
  simp [firstPref, List.findSome?_cons, hj]

/-- Head step of `firstPref` when the candidate's entry matches the
preferred document. -/
theorem firstPref_cons_match {w : World} {rt p c : String} {rest : List String}
    {m : Entry} (hj : jsonl_find_by_slug_or_name w rt c = some m)
    (hd : (m.document_slug == some p) = true) :
    firstPref w rt p (c :: rest) = some m := by
  have hd' : m.document_slug = some p := by simpa using hd
  simp [firstPref, List.findSome?_cons, hj, hd']

/-- Head step of `firstPref` when the candidate's entry exists but its
document does not match. -/
theorem firstPref_cons_skip {w : World} {rt p c : String} {rest : List String}
    {m : Entry} (hj : jsonl_find_by_slug_or_name w rt c = some m)
    (hd : (m.document_slug == some p) = false) :
    firstPref w rt p (c :: rest) = firstPref w rt p rest := by
  have hd' : ¬(m.document_slug = some p) := by simpa using hd
  simp [firstPref, List.findSome?_cons, hj, hd']

/-- The inner candidate loop with a falsy `prefer_doc` (absent or empty)
returns the accumulated best, else the first fetchable candidate. -/
theorem disamb_spec_nopref (w : World) (rt : String) (pd : Option String)
    (hpd : ∀ meta, prefMatches pd meta = false) (cs : List String)
    (b : Option Entry) :
    disambiguateSlugs w rt pd b cs = orFirst b (firstFetch w rt cs) := by
  induction cs generalizing b with
  | nil => cases b <;> simp [disambiguateSlugs, firstFetch, orFirst]
  | cons c rest ih =>
    cases hj : jsonl_find_by_slug_or_name w rt c with
    | none =>
      simp only [disambiguateSlugs, hj]
      rw [ih b, firstFetch_cons_none hj]
    | some meta =>
      simp only [disambiguateSlugs, hj]
      rw [if_neg (by simp [hpd meta])]
      rw [ih, firstFetch_cons_some hj]
      cases b <;> rfl

/-- The inner candidate loop with a truthy `prefer_doc`: the first
candidate (in index order) whose entry matches the preferred document
wins and stops the scan; otherwise the accumulated best, else the first
fetchable candidate. -/
theorem disamb_spec_pref (w : World) (rt p : String) (hp : p ≠ "")
    (cs : List String) (b : Option Entry) :
    disambiguateSlugs w rt (some p) b cs =
      orFirst (firstPref w rt p cs) (orFirst b (firstFetch w rt cs)) := by
  induction cs generalizing b with
  | nil => cases b <;> simp [disambiguateSlugs, firstFetch, firstPref, orFirst]
  | cons c rest ih =>
    cases hj : jsonl_find_by_slug_or_name w rt c with
    | none =>
      simp only [disambiguateSlugs, hj]
      rw [ih b, firstFetch_cons_none hj, firstPref_cons_none hj]
    | some meta =>
      cases hd : meta.document_slug == some p with
      | true =>
        simp only [disambiguateSlugs, hj]
        rw [if_pos (by simp [prefMatches, hp, hd])]
        rw [firstPref_cons_match hj hd]
        rfl
      | false =>
        simp only [disambiguateSlugs, hj]
        rw [if_neg (by simp [prefMatches, hp, hd])]
        rw [ih, firstPref_cons_skip hj hd, firstFetch_cons_some hj]
        cases hfp : firstPref w rt p rest with
        | some m => rfl
        | none => cases b <;> rfl

/-- The outer lookup loop skips every pair that fails the
name-match-and-nonempty guard. -/
theorem scanLookup_append (w : World) (rt ns : String) (pd : Option String)
    (L1 L2 : List (String × List String))
    (h : ∀ pr ∈ L1, ¬(pyStripLower pr.1 = pyStripLower ns ∧ pr.2 ≠ [])) :
    scanLookup w rt ns pd (L1 ++ L2) = scanLookup w rt ns pd L2 := by
  induction L1 with
  | nil => rfl
  | cons a L ih =>
    obtain ⟨nm, sl⟩ := a
    rw [List.cons_append, scanLookup]
    rw [if_neg (h (nm, sl) (List.mem_cons_self _ _))]
    exact ih (fun pr hpr => h pr (List.mem_cons_of_mem _ hpr))

/-- C2: when `search_table` falls through to the name-disambiguation
tier for a name whose (first) matching lookup pair has candidates `cs`:
with a single fetchable candidate the resolver returns that entry
regardless of `prefer_doc`; with a truthy `prefer_doc` matching some
fetchable candidate's document, the first such candidate (in index
order) is returned and scanning stops there; otherwise the first
candidate whose full entry can be fetched is returned. -/
theorem search_table_name_disambiguation (w : World) (t ns : String)
    (pd : Option String)
    (h1 : optTruthy (sqlite_get_api_url w.sqlite t ns) = false)
    (h2 : jsonl_find_by_slug_or_name w t ns = none)
    (hk : t ∈ lookupKinds)
    (L1 L2 : List (String × List String)) (nm : String) (cs : List String)
    (hL : load_lookup w t = L1 ++ (nm, cs) :: L2)
    (hpre : ∀ pr ∈ L1, ¬(pyStripLower pr.1 = pyStripLower ns ∧ pr.2 ≠ []))
    (hnm : pyStripLower nm = pyStripLower ns) (hcs : cs ≠ []) :
    (∀ c m, cs = [c] → jsonl_find_by_slug_or_name w t c = some m →
        search_table w t ns pd =
          SearchResult.found m.name m.slug_or_index m.api_url)
  ∧ (∀ p m, pd = some p → p ≠ "" → firstPref w t p cs = some m →
        search_table w t ns pd =
          SearchResult.found m.name m.slug_or_index m.api_url)
  ∧ (∀ m, (∀ p, pd = some p → p = "" ∨ firstPref w t p cs = none) →
        firstFetch w t cs = some m →
        search_table w t ns pd =
          SearchResult.found m.name m.slug_or_index m.api_url) := by
  have hmain : ∀ m, disambiguateSlugs w t pd none cs = some m →
      search_table w t ns pd =
        SearchResult.found m.name m.slug_or_index m.api_url := by
    intro m hm
    unfold search_table
    simp only [h1, Bool.false_eq_true, if_false, h2]
    rw [if_pos hk, hL, scanLookup_append w t ns pd L1 _ hpre]
    rw [scanLookup, if_pos ⟨hnm, hcs⟩, hm]
  refine ⟨?_, ?_, ?_⟩
  · intro c m hc hj
    subst hc
    apply hmain
    rcases pd with _ | p
    · rw [disamb_spec_nopref w t none (fun meta => rfl)]
      rw [firstFetch_cons_some hj]
      rfl
    · by_cases hp : p = ""
      · subst hp
        rw [disamb_spec_nopref w t (some "") (fun meta => rfl)]
        rw [firstFetch_cons_some hj]
        rfl
      · rw [disamb_spec_pref w t p hp]
        cases hd : m.document_slug == some p with
        | true =>
          rw [firstPref_cons_match hj hd]
          rfl
        | false =>
          rw [firstPref_cons_skip hj hd, firstFetch_cons_some hj]
          rfl
  · intro p m hpd hp hfp
    subst hpd
    apply hmain
    rw [disamb_spec_pref w t p hp, hfp]
    rfl
  · intro m hnp hff
    apply hmain
    rcases pd with _ | p
    · rw [disamb_spec_nopref w t none (fun meta => rfl), hff]
      rfl
    · by_cases hp : p = ""
      · subst hp
        rw [disamb_spec_nopref w t (some "") (fun meta => rfl), hff]
        rfl
      · rcases hnp p rfl with hpe | hfpn
        · exact absurd hpe hp
        · rw [disamb_spec_pref w t p hp, hfpn, hff]
          rfl

/-- World whose lookup table maps the display name `Zombie` to two
candidates living in different documents (neither of which matches the
name exactly in the flat file, so resolution falls through to the
disambiguation tier). -/
def wLookup : World where
  sqlite := none
  jsonl := fun rt =>
    if rt = "monsters" then
      some
        [some ⟨some "monsters", some "ZombieX", some "zombie-a",
               some "urlA", some "srd-2014", none⟩,
         some ⟨some "monsters", some "ZombieY", some "zombie-b",
               some "urlB", some "srd-2024", none⟩]
    else none
  lookupFiles := fun rt =>
    if rt = "monsters" then some [("Zombie", ["zombie-a", "zombie-b"])]
    else none
  cache := fun _ _ => none
  net := fun _ => Except.error "offline"
  netCount := 0

/-- Witness for C2: with two candidates in different documents and
`prefer_doc = "srd-2024"`, the matching candidate is chosen. -/
theorem search_table_name_disambiguation_witness :
    search_table wLookup "monsters" "Zombie" (some "srd-2024") =
      SearchResult.found (some "ZombieY") (some "zombie-b") (some "urlB") :=
  (search_table_name_disambiguation wLookup "monsters" "Zombie"
      (some "srd-2024") rfl (by rfl) (by decide) [] []
      "Zombie" ["zombie-a", "zombie-b"] (by rfl)
      (fun pr hpr => absurd hpr (List.not_mem_nil _)) rfl
      (by decide)).2.1 "srd-2024"
    (⟨some "monsters", some "ZombieY", some "zombie-b",
      some "urlB", some "srd-2024", none⟩ : Entry)
    rfl (by decide) (by rfl)
